import Mathlib

/-!
Shallow embedding of `src/http/handlers/response.js` (the response/error
classifier of `vuchan/fe-utils`): the success-path classifier
`responseHandler`, its backward-compatible wrapper
`needReturnResponseHandler`, the error-path classifier
`responseErrorHandler`, and its wrapper `needReturnResponseErrorHandler`.

JavaScript values are modelled as follows.  A response body (`data`) is a
`Body`: `undef`/`null` for the missing body, `prim` for an opaque
non-envelope value (carrying its JS truthiness and an identity tag), and
`env` for an object shaped like the application envelope
`{ code, data, message, success }`, with `code : Option Int` (`none` =
field absent) and the payload `data.data : Option Nat` as an opaque tag.
Absent object fields become `Option`; an absent/empty string message is
`""` (both are falsy under `||`, which is all the code observes).
Machine-level side effects are made explicit: the pair returned by each
classifier carries the list of message-display handler invocations
(`HandlerId × String`); `console.log`/`console.dir` debugging output has
no control-flow effect and is not modelled.  A JavaScript function that
returns a value, returns `undefined`, rejects, or throws a `TypeError`
while destructuring is modelled by an explicit result inductive with one
constructor per outcome.

The helper modules imported by `response.js` (`getMessage`,
`codeHandlers`, `isRightResponse`, `isStandardResponseBody`,
`errorMessage`, `HTTP_STATUS_CODE`, axios' `createError`) are not part of
the given source tree; the classifiers are therefore parameterised over
them, and concrete versions modelled from the spec are provided for
evaluation at concrete inputs.
-/

namespace FeUtils

/-- A response body as seen by the classifier: either absent, an opaque
non-envelope JS value (with its truthiness and an identity tag), or an
object with the envelope fields `{ code, data, message, success }`. -/
inductive Body where
  | undef : Body
  | null : Body
  | prim (truthy : Bool) (tag : Nat) : Body
  | env (code : Option Int) (payload : Option Nat) (message : String) (success : Bool) : Body
  deriving DecidableEq, Repr

/-- JS truthiness of a body value: `undefined` and `null` are falsy,
objects are truthy, opaque primitives carry their own truthiness. -/
def Body.truthy : Body → Bool
  | .undef => false
  | .null => false
  | .prim t _ => t
  | .env _ _ _ _ => true

/-- The JS property access `data.code`: `none` when the field is absent
(also for non-objects, where the access yields `undefined`). -/
def Body.codeField : Body → Option Int
  | .env c _ _ _ => c
  | _ => none

/-- The JS property access `data.data` (the envelope payload). -/
def Body.dataField : Body → Option Nat
  | .env _ p _ _ => p
  | _ => none

/-- The per-request configuration flags destructured from `config` in
`response.js`; an absent flag is `false` (JS `undefined` is falsy). -/
structure RequestConfig where
  all : Bool
  external : Bool
  debug : Bool
  ignoreMsg : Bool
  handleError : Bool
  deriving DecidableEq, Repr

/-- An axios response `{ data, status, statusText, request, config }`
(headers are never read by the classifier).  `request` is an opaque
identity tag. -/
structure AxiosResponse where
  data : Body
  status : Int
  statusText : String
  request : Nat
  config : RequestConfig
  deriving DecidableEq, Repr

/-- Identity of a message-display handler: the default `errorMessage`
handler from `@@/utils/message`, or a code-specific handler from the
`codeHandlers` table. -/
inductive HandlerId where
  | errorMessage : HandlerId
  | custom (n : Nat) : HandlerId
  deriving DecidableEq, Repr

/-- The standardized error value built by axios' `createError(message,
config, code, request, response)`. -/
structure StdError where
  message : String
  config : RequestConfig
  code : Int
  request : Nat
  response : AxiosResponse
  deriving DecidableEq, Repr

/-- `createError` from `axios/lib/core/createError`: builds the
standardized error carrying message, config, code, request, response. -/
def createError (message : String) (config : RequestConfig) (code : Int)
    (request : Nat) (response : AxiosResponse) : StdError :=
  ⟨message, config, code, request, response⟩

/-- A value returned by `responseHandler`: the whole response object, the
raw body, or the envelope payload `data.data`. -/
inductive HVal where
  | response (r : AxiosResponse) : HVal
  | body (b : Body) : HVal
  | payload (p : Option Nat) : HVal
  deriving DecidableEq, Repr

/-- Outcome of one `responseHandler` invocation: a plain returned value
(a resolved result), a rejected promise wrapping a standardized error, or
`undefined` (a JS function that falls off the end). -/
inductive HRes where
  | val (v : HVal) : HRes
  | reject (e : StdError) : HRes
  | undef : HRes
  deriving DecidableEq, Repr

/-- The code value `(data && data.code) || status` used by `createError`
calls in `response.js`: `data.code` when `data` is truthy and its `code`
field is a truthy (nonzero) number, otherwise the transport `status`. -/
def dataCodeOrStatus (data : Body) (status : Int) : Int :=
  if data.truthy then
    match data.codeField with
    | some c => if c ≠ 0 then c else status
    | none => status
  else status

/-- JS string short-circuit `a || b`: `a` when nonempty, else `b`. -/
def strOr (a b : String) : String :=
  if a ≠ "" then a else b

/-- The only member of the `HTTP_STATUS_CODE` enumeration read by
`response.js`.  Modelled from the spec: `../config/http-code-status` is
not in the given source tree; the spec says only the canonical OK code
(HTTP 200) is referenced. -/
def HTTP_STATUS_CODE_OK : Int := 200

/-- One message-display side effect: which handler ran, with what
message. -/
abbrev Effect := HandlerId × String

section Classifiers

/- The helper modules `response.js` imports (`is-standard-response`,
`is-right-response`, `get-message`, `code-status-handler`) are not part of
the given source tree, so the classifiers are parameterised over them:
`isStandardResponseBody` is the envelope-shape check, `isRightResponse`
the logical-success check, `getMessage` the message derivation
`(data, status, statusText) → message` (`""` = falsy/absent result), and
`codeHandlers` the code → handler lookup table. -/
variable (isStandardResponseBody : Body → Bool)
variable (isRightResponse : Body → Bool)
variable (getMessage : Body → Int → String → String)
variable (codeHandlers : Int → Option HandlerId)

/-- `responseHandler(response, allResponse)` from `response.js`, together
with the list of message-display handler invocations it performs.  The
`console.log` on debug/non-OK status is diagnostic only and not modelled.
In the source, `codeHandlers[data.code] || errorMessage` is always a
function, hence truthy, so the guard `!ignoreMsg && handler` reduces to
`!ignoreMsg`. -/
def responseHandler (response : AxiosResponse) (allResponse : Bool) :
    HRes × List Effect :=
  let data := response.data
  let status := response.status
  let statusText := response.statusText
  let request := response.request
  let config := response.config
  if status = HTTP_STATUS_CODE_OK then
    if config.all then (.val (.response response), [])
    else if config.external || !isStandardResponseBody data then
      (.val (if allResponse then .response response else .body data), [])
    else if isRightResponse data then
      (.val (if allResponse then .response response else .payload data.dataField), [])
    else
      let handler := (data.codeField.bind codeHandlers).getD .errorMessage
      let errorMsg := getMessage data status statusText
      if !config.handleError then
        let effs : List Effect := if !config.ignoreMsg then [(handler, errorMsg)] else []
        if allResponse then (.val (.response response), effs)
        else
          (.reject (createError errorMsg config (dataCodeOrStatus data status) request response),
           effs)
      else
        if allResponse then (.val (.response response), [])
        else
          (.reject (createError errorMsg config (dataCodeOrStatus data status) request response),
           [])
  else
    (.reject (createError ("Unexpected http status code: " ++ toString status) config
        (dataCodeOrStatus data status) request response),
     [])

/-- `needReturnResponseHandler(response)`: calls `responseHandler` with
`allResponse = true` and falls back to the original response when the
result is `undefined`. -/
def needReturnResponseHandler (response : AxiosResponse) : HRes × List Effect :=
  match responseHandler isStandardResponseBody isRightResponse getMessage codeHandlers
      response true with
  | (.undef, effs) => (.val (.response response), effs)
  | r => r

/-- An axios error `{ code, message, config, request, response }` as the
error-path classifier receives it: `code`/`config`/`response` may be
absent, an absent or empty `message` is `""`. -/
structure AxiosError where
  code : Option Int
  message : String
  config : Option RequestConfig
  request : Nat
  response : Option AxiosResponse
  deriving DecidableEq, Repr

/-- What a rejected promise from the error path carries: the original
error object itself (possibly mutated in place), or a freshly constructed
standardized error. -/
inductive RejectVal where
  | original (e : AxiosError) : RejectVal
  | fresh (e : StdError) : RejectVal
  deriving DecidableEq, Repr

/-- Outcome of one `responseErrorHandler` invocation: a rejected promise,
`undefined` (the function falls off the end), or a `TypeError` thrown
while destructuring an absent object. -/
inductive ERes where
  | reject (v : RejectVal) : ERes
  | undef : ERes
  | thrown (loc : String) : ERes
  deriving DecidableEq, Repr

/-- The message `getMessage(data, status, statusText) || error.message ||
'Uncaught Error (in ibuild/http)'` derived in `responseErrorHandler`. -/
def deriveErrorMsg (error : AxiosError) (resp : AxiosResponse) : String :=
  strOr (getMessage resp.data resp.status resp.statusText)
    (strOr error.message "Uncaught Error (in ibuild/http)")

/-- The in-place mutation `responseErrorHandler` performs on the error:
`error.message = errorMsg` when the message was empty, and
`error.code = status` when the code was falsy and `status` truthy. -/
def normalizeError (error : AxiosError) (resp : AxiosResponse) : AxiosError :=
  let errorMsg := deriveErrorMsg getMessage error resp
  let e1 := { error with message := if error.message = "" then errorMsg else error.message }
  { e1 with
    code := if e1.code.getD 0 = 0 ∧ resp.status ≠ 0 then some resp.status else e1.code }

/-- `responseErrorHandler(error)` from `response.js`, with its
message-display invocations.  The source destructures
`const { debug, handleError } = config` and
`const { data, status, statusText } = response` before the `if (config)`
guard, so an absent `config` or `response` throws a `TypeError`; when
`config` is present it is an object, hence truthy, and the guard always
passes.  The `console.dir` on debug is not modelled.  Note the error path
never reads `ignoreMsg`. -/
def responseErrorHandler (error : AxiosError) : ERes × List Effect :=
  match error.config with
  | none => (.thrown "destructure of config", [])
  | some config =>
    match error.response with
    | none => (.thrown "destructure of response", [])
    | some response =>
      let data := response.data
      let status := response.status
      let statusText := response.statusText
      let errorMsg :=
        strOr (getMessage data status statusText)
          (strOr error.message "Uncaught Error (in ibuild/http)")
      let mutated := normalizeError getMessage error response
      if config.handleError then
        (.reject (.original mutated), [])
      else
        (.reject (.fresh (createError errorMsg config (dataCodeOrStatus data status)
            error.request response)),
         [(.errorMessage, errorMsg)])

/-- `needReturnResponseErrorHandler(error)`: calls
`responseErrorHandler` and rejects with the original unmodified error
when the result is `undefined`; a `TypeError` thrown inside
`responseErrorHandler` propagates. -/
def needReturnResponseErrorHandler (error : AxiosError) : ERes × List Effect :=
  match responseErrorHandler getMessage error with
  | (.undef, effs) => (.reject (.original error), effs)
  | r => r

end Classifiers

/-- Modelled from the spec: `isStandardResponseBody` from
`../helpers/is-standard-response` (not in the given source tree) is the
structural check that a body matches the application envelope shape
`{ code, data, message, success }`. -/
def isStandardResponseBody : Body → Bool
  | .env _ _ _ _ => true
  | _ => false

/-- Modelled from the spec: `isRightResponse` from
`../helpers/is-right-response` (not in the given source tree) determines
whether an envelope signals logical success (its `success` flag). -/
def isRightResponse : Body → Bool
  | .env _ _ _ s => s
  | _ => false

/-- Modelled from the spec: `getMessage` from `../helpers/get-message`
(not in the given source tree) derives a human-readable message with
fallback priority envelope message → statusText. -/
def getMessage : Body → Int → String → String
  | .env _ _ m _, _, st => if m ≠ "" then m else st
  | _, _, st => st

/-- Modelled from the spec: `codeHandlers` from
`../helpers/code-status-handler` (not in the given source tree) maps
application result codes to side-effect handlers (e.g. a code-403
handler); codes outside the table have no entry. -/
def codeHandlers : Int → Option HandlerId
  | 403 => some (.custom 403)
  | _ => none

/-- Flags all unset: the `flags={}` case of the spec scenarios. -/
def emptyConfig : RequestConfig := ⟨false, false, false, false, false⟩

/-- Flags with only `all` set. -/
def allConfig : RequestConfig := ⟨true, false, false, false, false⟩

/-- Flags with only `ignoreMsg` set. -/
def ignoreMsgConfig : RequestConfig := ⟨false, false, false, true, false⟩

/-- A 200 response whose envelope carries `code: 0` but signals failure,
with empty flags. -/
def respCodeZero : AxiosResponse :=
  ⟨.env (some 0) none "bad" false, 200, "OK", 0, emptyConfig⟩

/-- A 200 response with a non-envelope body and the `all` flag set. -/
def respAllFlag : AxiosResponse :=
  ⟨.prim true 7, 200, "OK", 0, allConfig⟩

/-- A plain 500 response with empty flags, no standard body. -/
def resp500 : AxiosResponse :=
  ⟨.undef, 500, "Internal Server Error", 0, emptyConfig⟩

/-- A 200 failure-envelope response (code 403), empty flags. -/
def resp403 : AxiosResponse :=
  ⟨.env (some 403) none "Forbidden" false, 200, "OK", 0, emptyConfig⟩

/-- An error with `config` absent (e.g. thrown before a request config
existed), carrying a response. -/
def errNoConfig : AxiosError :=
  ⟨none, "boom", none, 0, some resp500⟩

/-- An error with `config` present but no HTTP response (e.g. a network
failure). -/
def errNoResponse : AxiosError :=
  ⟨none, "Network Error", some emptyConfig, 0, none⟩

/-- An error with config and response present, `ignoreMsg` set,
`handleError` unset. -/
def errIgnoreMsg : AxiosError :=
  ⟨none, "", some ignoreMsgConfig, 0, some resp500⟩

/-- A 200 response with an opaque non-envelope body and empty flags. -/
def respOpaque : AxiosResponse :=
  ⟨.prim true 9, 200, "OK", 3, emptyConfig⟩

/-- A 502 response whose body carries `code: 0`, empty flags. -/
def resp502zero : AxiosResponse :=
  ⟨.env (some 0) none "x" false, 502, "Bad Gateway", 0, emptyConfig⟩

/-- The code of the standardized error a result rejects with, if it is a
rejection. -/
def HRes.rejCode : HRes → Option Int
  | .reject e => some e.code
  | _ => none

/-! ## Helper lemmas shared by the claim theorems -/

theorem dataCodeOrStatus_of_code (d : Body) (s c : Int)
    (hc : d.codeField = some c) (hne : c ≠ 0) : dataCodeOrStatus d s = c := by
  cases d <;> simp_all [dataCodeOrStatus, Body.codeField, Body.truthy]

theorem dataCodeOrStatus_of_fallback (d : Body) (s : Int)
    (h : d.truthy = false ∨ d.codeField = none ∨ d.codeField = some 0) :
    dataCodeOrStatus d s = s := by
  cases d <;> rcases h with h | h | h <;>
    simp_all [dataCodeOrStatus, Body.codeField, Body.truthy]

theorem responseHandler_of_not_ok (hs hr : Body → Bool)
    (gm : Body → Int → String → String) (ch : Int → Option HandlerId)
    (r : AxiosResponse) (ar : Bool) (h : r.status ≠ HTTP_STATUS_CODE_OK) :
    responseHandler hs hr gm ch r ar =
      (.reject (createError ("Unexpected http status code: " ++ toString r.status)
          r.config (dataCodeOrStatus r.data r.status) r.request r), []) := by
  unfold responseHandler
  rw [if_neg h]

theorem responseHandler_ok_allResponse (hs hr : Body → Bool)
    (gm : Body → Int → String → String) (ch : Int → Option HandlerId)
    (r : AxiosResponse) (h : r.status = HTTP_STATUS_CODE_OK) :
    (responseHandler hs hr gm ch r true).1 = .val (.response r) := by
  unfold responseHandler
  rw [if_pos h]
  split_ifs <;> simp_all

theorem responseErrorHandler_of_present (gm : Body → Int → String → String)
    (error : AxiosError) (cfg : RequestConfig) (resp : AxiosResponse)
    (hc : error.config = some cfg) (hresp : error.response = some resp) :
    responseErrorHandler gm error =
      if cfg.handleError then
        (.reject (.original (normalizeError gm error resp)), [])
      else
        (.reject (.fresh (createError (deriveErrorMsg gm error resp) cfg
            (dataCodeOrStatus resp.data resp.status) error.request resp)),
         [(.errorMessage, deriveErrorMsg gm error resp)]) := by
  unfold responseErrorHandler
  rw [hc, hresp]
  simp only [deriveErrorMsg]

theorem responseHandler_not_undef (hs hr : Body → Bool)
    (gm : Body → Int → String → String) (ch : Int → Option HandlerId)
    (r : AxiosResponse) (ar : Bool) :
    (∃ v, (responseHandler hs hr gm ch r ar).1 = .val v) ∨
    (∃ e, (responseHandler hs hr gm ch r ar).1 = .reject e) := by
  simp only [responseHandler]
  split_ifs <;> first | exact Or.inl ⟨_, rfl⟩ | exact Or.inr ⟨_, rfl⟩

theorem responseHandler_effects_bound (hs hr : Body → Bool)
    (gm : Body → Int → String → String) (ch : Int → Option HandlerId)
    (r : AxiosResponse) (ar : Bool) :
    (responseHandler hs hr gm ch r ar).2.length ≤ 1 ∧
    (r.config.ignoreMsg = true → (responseHandler hs hr gm ch r ar).2 = []) ∧
    (r.config.handleError = true → (responseHandler hs hr gm ch r ar).2 = []) := by
  simp only [responseHandler]
  split_ifs <;> simp_all

/-! ## Claim theorems -/

/-- C1: the claim says that on an error whose `config` is absent,
`responseErrorHandler` produces `undefined` and
`needReturnResponseErrorHandler` then rejects with the original
unmodified error.  The code instead throws a `TypeError` at the
destructuring `const { debug, handleError } = config` before the
`if (config)` guard runs, and the wrapper propagates the exception, so it
never rejects with the original error.  This theorem evaluates both
functions at such an input. -/
theorem c1_config_absent_throws_not_rejects :
    errNoConfig.config = none ∧
    responseErrorHandler getMessage errNoConfig = (.thrown "destructure of config", []) ∧
    needReturnResponseErrorHandler getMessage errNoConfig =
      (.thrown "destructure of config", []) ∧
    needReturnResponseErrorHandler getMessage errNoConfig ≠
      (.reject (.original errNoConfig), []) := by
  refine ⟨rfl, rfl, rfl, ?_⟩
  decide

/-- C8: whenever the error's `config` field or its `response` field is
absent, `responseErrorHandler` — and hence
`needReturnResponseErrorHandler` — throws at the unconditional
destructuring before any guard runs, returning neither a value nor a
rejected promise, and invoking no display handler. -/
theorem c8_absent_config_or_response_throws (gm : Body → Int → String → String)
    (error : AxiosError) (h : error.config = none ∨ error.response = none) :
    (∃ loc, responseErrorHandler gm error = (.thrown loc, [])) ∧
    (∃ loc, needReturnResponseErrorHandler gm error = (.thrown loc, [])) := by
  rcases hc : error.config with _ | cfg
  · constructor
    · exact ⟨"destructure of config", by unfold responseErrorHandler; rw [hc]⟩
    · refine ⟨"destructure of config", ?_⟩
      unfold needReturnResponseErrorHandler responseErrorHandler
      rw [hc]
  · rcases hresp : error.response with _ | resp
    · constructor
      · exact ⟨"destructure of response", by unfold responseErrorHandler; rw [hc, hresp]⟩
      · refine ⟨"destructure of response", ?_⟩
        unfold needReturnResponseErrorHandler responseErrorHandler
        rw [hc, hresp]
    · rcases h with h | h
      · exact absurd hc (h ▸ by simp)
      · exact absurd hresp (h ▸ by simp)

/-- Witness for C8 at a concrete network-failure error: `config` present
but `response` absent. -/
theorem c8_absent_config_or_response_throws_witness :
    (errNoResponse.config = none ∨ errNoResponse.response = none) ∧
    ((∃ loc, responseErrorHandler getMessage errNoResponse = (.thrown loc, [])) ∧
     (∃ loc, needReturnResponseErrorHandler getMessage errNoResponse = (.thrown loc, []))) :=
  ⟨Or.inr rfl,
   c8_absent_config_or_response_throws getMessage errNoResponse (Or.inr rfl)⟩

/-- C6: for every response whose transport status is not the OK code,
`responseHandler` rejects with a standardized error whose message is
`"Unexpected http status code: " ++ status` — in particular the message
contains the numeric status code. -/
theorem c6_not_ok_rejects_with_status_message (hs hr : Body → Bool)
    (gm : Body → Int → String → String) (ch : Int → Option HandlerId)
    (r : AxiosResponse) (ar : Bool) (h : r.status ≠ HTTP_STATUS_CODE_OK) :
    ∃ e, (responseHandler hs hr gm ch r ar).1 = .reject e ∧
      e.message = "Unexpected http status code: " ++ toString r.status ∧
      ∃ pre post, e.message = pre ++ toString r.status ++ post := by
  refine ⟨_, by rw [responseHandler_of_not_ok hs hr gm ch r ar h], rfl,
    "Unexpected http status code: ", "", ?_⟩
  simp [createError]

/-- Witness for C6: the spec scenario status=500, flags={} rejects with
message exactly "Unexpected http status code: 500". -/
theorem c6_not_ok_rejects_with_status_message_witness :
    (resp500.status ≠ HTTP_STATUS_CODE_OK ∧
      ∃ e, (responseHandler isStandardResponseBody isRightResponse getMessage codeHandlers
          resp500 false).1 = .reject e ∧
        e.message = "Unexpected http status code: " ++ toString resp500.status ∧
        ∃ pre post, e.message = pre ++ toString resp500.status ++ post) ∧
    "Unexpected http status code: " ++ toString resp500.status =
      "Unexpected http status code: 500" :=
  ⟨⟨by decide,
    c6_not_ok_rejects_with_status_message isStandardResponseBody isRightResponse getMessage
      codeHandlers resp500 false (by decide)⟩,
   rfl⟩

/-- C10: for every response with non-OK transport status, the code field
of the rejected standardized error equals `data.code` when the body and
its code field are truthy, and otherwise equals the transport status (a
body carrying `code: 0` yields the status, not 0), for both values of
`allResponse`. -/
theorem c10_not_ok_reject_code (hs hr : Body → Bool)
    (gm : Body → Int → String → String) (ch : Int → Option HandlerId)
    (r : AxiosResponse) (ar : Bool) (h : r.status ≠ HTTP_STATUS_CODE_OK) :
    ∃ e, (responseHandler hs hr gm ch r ar).1 = .reject e ∧
      (∀ c, r.data.codeField = some c → c ≠ 0 → e.code = c) ∧
      ((r.data.truthy = false ∨ r.data.codeField = none ∨ r.data.codeField = some 0) →
        e.code = r.status) := by
  refine ⟨_, by rw [responseHandler_of_not_ok hs hr gm ch r ar h], ?_, ?_⟩
  · intro c hc hne
    exact dataCodeOrStatus_of_code r.data r.status c hc hne
  · intro hfb
    exact dataCodeOrStatus_of_fallback r.data r.status hfb

/-- Witness for C10 at a 502 response whose body carries `code: 0`: the
rejected error's code is the transport status 502, not 0. -/
theorem c10_not_ok_reject_code_witness :
    (resp502zero.status ≠ HTTP_STATUS_CODE_OK ∧
      ∃ e, (responseHandler isStandardResponseBody isRightResponse getMessage codeHandlers
          resp502zero false).1 = .reject e ∧
        (∀ c, resp502zero.data.codeField = some c → c ≠ 0 → e.code = c) ∧
        ((resp502zero.data.truthy = false ∨ resp502zero.data.codeField = none ∨
            resp502zero.data.codeField = some 0) → e.code = resp502zero.status)) ∧
    resp502zero.data.codeField = some 0 ∧
    (responseHandler isStandardResponseBody isRightResponse getMessage codeHandlers
        resp502zero false).1.rejCode = some 502 :=
  ⟨⟨by decide,
    c10_not_ok_reject_code isStandardResponseBody isRightResponse getMessage codeHandlers
      resp502zero false (by decide)⟩,
   rfl, by decide⟩

/-- C3 counterexample: a 200 response whose envelope carries the present
code `0` and signals failure, empty flags, `allResponse = false`.  The
claim predicts a rejection whose code equals `data.code = 0`; the code
rejects with code 200 (the status), because `(data && data.code) ||
status` treats the present but falsy code 0 as absent. -/
theorem c3_counterexample_code_zero :
    respCodeZero.status = HTTP_STATUS_CODE_OK ∧
    isStandardResponseBody respCodeZero.data = true ∧
    isRightResponse respCodeZero.data = false ∧
    respCodeZero.config.all = false ∧
    respCodeZero.config.external = false ∧
    respCodeZero.data.codeField = some 0 ∧
    (responseHandler isStandardResponseBody isRightResponse getMessage codeHandlers
        respCodeZero false).1.rejCode = some 200 ∧
    some (200 : Int) ≠ some (0 : Int) := by
  refine ⟨rfl, rfl, rfl, rfl, rfl, rfl, by decide, by decide⟩

/-- C3 amended: for every OK-status response whose body is a standard
envelope with `isRightResponse(data)` false, whose `all` and `external`
flags are unset, and `allResponse` false, `responseHandler` rejects with
an error whose code equals `data.code` when that field is present and
nonzero, else the status — regardless of `handleError`. -/
theorem c3_amended_envelope_failure_rejects (hs hr : Body → Bool)
    (gm : Body → Int → String → String) (ch : Int → Option HandlerId)
    (r : AxiosResponse) (h200 : r.status = HTTP_STATUS_CODE_OK)
    (hstd : hs r.data = true) (hfail : hr r.data = false)
    (hall : r.config.all = false) (hext : r.config.external = false) :
    ∃ e, (responseHandler hs hr gm ch r false).1 = .reject e ∧
      (∀ c, r.data.codeField = some c → c ≠ 0 → e.code = c) ∧
      ((r.data.codeField = none ∨ r.data.codeField = some 0) → e.code = r.status) := by
  have hrej : (responseHandler hs hr gm ch r false).1 =
      .reject (createError (gm r.data r.status r.statusText) r.config
        (dataCodeOrStatus r.data r.status) r.request r) := by
    unfold responseHandler
    rw [if_pos h200]
    rw [if_neg (by simp [hall]), if_neg (by simp [hext, hstd]), if_neg (by simp [hfail])]
    split_ifs <;> first | rfl | contradiction
  refine ⟨_, hrej, ?_, ?_⟩
  · intro c hc hne
    exact dataCodeOrStatus_of_code r.data r.status c hc hne
  · intro hfb
    refine dataCodeOrStatus_of_fallback r.data r.status (Or.inr hfb)

/-- Witness for the amended C3 at the spec scenario: 200 response with a
code-403 failure envelope and empty flags rejects with code 403. -/
theorem c3_amended_envelope_failure_rejects_witness :
    (resp403.status = HTTP_STATUS_CODE_OK ∧
      isStandardResponseBody resp403.data = true ∧
      isRightResponse resp403.data = false ∧
      resp403.config.all = false ∧ resp403.config.external = false ∧
      ∃ e, (responseHandler isStandardResponseBody isRightResponse getMessage codeHandlers
          resp403 false).1 = .reject e ∧
        (∀ c, resp403.data.codeField = some c → c ≠ 0 → e.code = c) ∧
        ((resp403.data.codeField = none ∨ resp403.data.codeField = some 0) →
          e.code = resp403.status)) ∧
    resp403.data.codeField = some 403 :=
  ⟨⟨rfl, rfl, rfl, rfl, rfl,
    c3_amended_envelope_failure_rejects isStandardResponseBody isRightResponse getMessage
      codeHandlers resp403 rfl rfl rfl rfl rfl⟩,
   rfl⟩

/-- C4: for every OK-status response whose body is a standard envelope
with `isRightResponse(data)` false and `allResponse` true,
`responseHandler` resolves (never rejects) with the full response object,
in both the `handleError` and non-`handleError` branches (the flags are
unconstrained). -/
theorem c4_allResponse_failure_resolves (hs hr : Body → Bool)
    (gm : Body → Int → String → String) (ch : Int → Option HandlerId)
    (r : AxiosResponse) (h200 : r.status = HTTP_STATUS_CODE_OK)
    (_hstd : hs r.data = true) (_hfail : hr r.data = false) :
    (responseHandler hs hr gm ch r true).1 = .val (.response r) :=
  responseHandler_ok_allResponse hs hr gm ch r h200

/-- Witness for C4 at the code-403 failure envelope with `allResponse`
true. -/
theorem c4_allResponse_failure_resolves_witness :
    resp403.status = HTTP_STATUS_CODE_OK ∧
    isStandardResponseBody resp403.data = true ∧
    isRightResponse resp403.data = false ∧
    (responseHandler isStandardResponseBody isRightResponse getMessage codeHandlers
        resp403 true).1 = .val (.response resp403) :=
  ⟨rfl, rfl, rfl,
   c4_allResponse_failure_resolves isStandardResponseBody isRightResponse getMessage
     codeHandlers resp403 rfl rfl rfl⟩

/-- C7 counterexample: a 200 response whose non-envelope body fails the
standard-envelope check but whose `all` flag is set.  The claim predicts
the raw body is returned; the code returns the whole response object
instead. -/
theorem c7_counterexample_all_flag :
    respAllFlag.status = HTTP_STATUS_CODE_OK ∧
    isStandardResponseBody respAllFlag.data = false ∧
    (responseHandler isStandardResponseBody isRightResponse getMessage codeHandlers
        respAllFlag false).1 = .val (.response respAllFlag) ∧
    (responseHandler isStandardResponseBody isRightResponse getMessage codeHandlers
        respAllFlag false).1 ≠ .val (.body respAllFlag.data) := by
  refine ⟨rfl, rfl, rfl, by decide⟩

/-- C7 amended: for every OK-status response whose body fails the
standard-envelope check and whose `all` flag is unset, `responseHandler`
with `allResponse` false returns the raw body exactly. -/
theorem c7_amended_non_envelope_returns_body (hs hr : Body → Bool)
    (gm : Body → Int → String → String) (ch : Int → Option HandlerId)
    (r : AxiosResponse) (h200 : r.status = HTTP_STATUS_CODE_OK)
    (hstd : hs r.data = false) (hall : r.config.all = false) :
    (responseHandler hs hr gm ch r false).1 = .val (.body r.data) := by
  unfold responseHandler
  rw [if_pos h200, if_neg (by simp [hall]), if_pos (by simp [hstd])]
  rfl

/-- Witness for the amended C7 at a 200 response with an opaque body and
empty flags. -/
theorem c7_amended_non_envelope_returns_body_witness :
    respOpaque.status = HTTP_STATUS_CODE_OK ∧
    isStandardResponseBody respOpaque.data = false ∧
    respOpaque.config.all = false ∧
    (responseHandler isStandardResponseBody isRightResponse getMessage codeHandlers
        respOpaque false).1 = .val (.body respOpaque.data) :=
  ⟨rfl, rfl, rfl,
   c7_amended_non_envelope_returns_body isStandardResponseBody isRightResponse getMessage
     codeHandlers respOpaque rfl rfl rfl⟩

/-- C9: for every response (and any helper implementations),
`responseHandler(response, true)` produces a defined result — the full
response object as a value, or a rejected promise — so
`needReturnResponseHandler` returns exactly
`responseHandler(response, true)` and its `undefined` fallback of
returning the original response is never taken. -/
theorem c9_needReturn_fallback_dead (hs hr : Body → Bool)
    (gm : Body → Int → String → String) (ch : Int → Option HandlerId)
    (r : AxiosResponse) :
    ((responseHandler hs hr gm ch r true).1 = .val (.response r) ∨
      ∃ e, (responseHandler hs hr gm ch r true).1 = .reject e) ∧
    needReturnResponseHandler hs hr gm ch r = responseHandler hs hr gm ch r true := by
  have hshape : (responseHandler hs hr gm ch r true).1 = .val (.response r) ∨
      ∃ e, (responseHandler hs hr gm ch r true).1 = .reject e := by
    by_cases h : r.status = HTTP_STATUS_CODE_OK
    · exact Or.inl (responseHandler_ok_allResponse hs hr gm ch r h)
    · exact Or.inr ⟨_, by rw [responseHandler_of_not_ok hs hr gm ch r true h]⟩
  refine ⟨hshape, ?_⟩
  unfold needReturnResponseHandler
  rcases hres : responseHandler hs hr gm ch r true with ⟨res, effs⟩
  rw [hres] at hshape
  cases res
  · rfl
  · rfl
  · rcases hshape with h | ⟨e, h⟩ <;> exact absurd h (by simp)

/-- C2 counterexample: an error with config and response present,
`ignoreMsg` set and `handleError` unset.  The claim says the
message-display side effect is suppressed when `ignoreMsg` applies, but
`responseErrorHandler` never reads `ignoreMsg` and invokes the default
`errorMessage` handler anyway. -/
theorem c2_counterexample_error_path_ignores_ignoreMsg :
    ignoreMsgConfig.ignoreMsg = true ∧
    ignoreMsgConfig.handleError = false ∧
    errIgnoreMsg.config = some ignoreMsgConfig ∧
    (responseErrorHandler getMessage errIgnoreMsg).2 =
      [(.errorMessage, "Internal Server Error")] :=
  ⟨rfl, rfl, rfl, rfl⟩

/-- C2 amended: for every invocation of `responseHandler`, exactly one of
a value or a rejected error is produced and the display handler runs at
most once, suppressed when `ignoreMsg` or `handleError` is set; for every
invocation of `responseErrorHandler` on an error with config and response
present, exactly one rejected result is produced and the display handler
runs at most once, suppressed when `handleError` is set (`ignoreMsg` is
not consulted on the error path). -/
theorem c2_amended_one_result_one_effect (hs hr : Body → Bool)
    (gm : Body → Int → String → String) (ch : Int → Option HandlerId)
    (r : AxiosResponse) (ar : Bool) (error : AxiosError) (cfg : RequestConfig)
    (resp : AxiosResponse) (hc : error.config = some cfg)
    (hresp : error.response = some resp) :
    ((∃ v, (responseHandler hs hr gm ch r ar).1 = .val v) ∨
      (∃ e, (responseHandler hs hr gm ch r ar).1 = .reject e)) ∧
    (responseHandler hs hr gm ch r ar).2.length ≤ 1 ∧
    (r.config.ignoreMsg = true → (responseHandler hs hr gm ch r ar).2 = []) ∧
    (r.config.handleError = true → (responseHandler hs hr gm ch r ar).2 = []) ∧
    (∃ rv, (responseErrorHandler gm error).1 = .reject rv) ∧
    (responseErrorHandler gm error).2.length ≤ 1 ∧
    (cfg.handleError = true → (responseErrorHandler gm error).2 = []) := by
  have heff := responseHandler_effects_bound hs hr gm ch r ar
  have herr := responseErrorHandler_of_present gm error cfg resp hc hresp
  refine ⟨responseHandler_not_undef hs hr gm ch r ar, heff.1, heff.2.1, heff.2.2, ?_, ?_, ?_⟩
  · rw [herr]
    split_ifs <;> exact ⟨_, rfl⟩
  · rw [herr]
    split_ifs <;> simp
  · intro hhe
    rw [herr, if_pos hhe]

/-- Witness for the amended C2 at the code-403 failure response and the
network error with `ignoreMsg` set. -/
theorem c2_amended_one_result_one_effect_witness :
    errIgnoreMsg.config = some ignoreMsgConfig ∧
    errIgnoreMsg.response = some resp500 ∧
    (((∃ v, (responseHandler isStandardResponseBody isRightResponse getMessage codeHandlers
          resp403 false).1 = .val v) ∨
       (∃ e, (responseHandler isStandardResponseBody isRightResponse getMessage codeHandlers
          resp403 false).1 = .reject e)) ∧
     (responseHandler isStandardResponseBody isRightResponse getMessage codeHandlers
        resp403 false).2.length ≤ 1 ∧
     (resp403.config.ignoreMsg = true →
       (responseHandler isStandardResponseBody isRightResponse getMessage codeHandlers
          resp403 false).2 = []) ∧
     (resp403.config.handleError = true →
       (responseHandler isStandardResponseBody isRightResponse getMessage codeHandlers
          resp403 false).2 = []) ∧
     (∃ rv, (responseErrorHandler getMessage errIgnoreMsg).1 = .reject rv) ∧
     (responseErrorHandler getMessage errIgnoreMsg).2.length ≤ 1 ∧
     (ignoreMsgConfig.handleError = true →
       (responseErrorHandler getMessage errIgnoreMsg).2 = [])) :=
  ⟨rfl, rfl,
   c2_amended_one_result_one_effect isStandardResponseBody isRightResponse getMessage
     codeHandlers resp403 false errIgnoreMsg ignoreMsgConfig resp500 rfl rfl⟩

/-- C5: on the error path with config and response present: if
`handleError` is set, `responseErrorHandler` rejects with the original
error object itself, after its `message` was filled in when empty and its
`code` filled from the status when falsy, with no display side effect;
if `handleError` is unset, it invokes the default display handler
`errorMessage` with the derived message and rejects with a freshly
constructed standardized error, not the original error object. -/
theorem c5_error_path_branches (gm : Body → Int → String → String)
    (error : AxiosError) (cfg : RequestConfig) (resp : AxiosResponse)
    (hc : error.config = some cfg) (hresp : error.response = some resp) :
    (cfg.handleError = true →
      responseErrorHandler gm error = (.reject (.original (normalizeError gm error resp)), []) ∧
      (normalizeError gm error resp).message =
        (if error.message = "" then deriveErrorMsg gm error resp else error.message) ∧
      (normalizeError gm error resp).code =
        (if error.code.getD 0 = 0 ∧ resp.status ≠ 0 then some resp.status else error.code) ∧
      (normalizeError gm error resp).config = error.config ∧
      (normalizeError gm error resp).request = error.request ∧
      (normalizeError gm error resp).response = error.response) ∧
    (cfg.handleError = false →
      responseErrorHandler gm error =
        (.reject (.fresh (createError (deriveErrorMsg gm error resp) cfg
            (dataCodeOrStatus resp.data resp.status) error.request resp)),
         [(.errorMessage, deriveErrorMsg gm error resp)]) ∧
      ∀ e0, RejectVal.fresh (createError (deriveErrorMsg gm error resp) cfg
          (dataCodeOrStatus resp.data resp.status) error.request resp) ≠ .original e0) := by
  constructor
  · intro hhe
    refine ⟨by rw [responseErrorHandler_of_present gm error cfg resp hc hresp, if_pos hhe],
      ?_, ?_, rfl, rfl, rfl⟩
    · simp [normalizeError]
    · simp [normalizeError]
  · intro hhe
    refine ⟨by rw [responseErrorHandler_of_present gm error cfg resp hc hresp,
        if_neg (by simp [hhe])], ?_⟩
    intro e0 h
    exact RejectVal.noConfusion h

/-- Witness for C5 at the network error with `handleError` unset. -/
theorem c5_error_path_branches_witness :
    errIgnoreMsg.config = some ignoreMsgConfig ∧
    errIgnoreMsg.response = some resp500 ∧
    ((ignoreMsgConfig.handleError = true →
       responseErrorHandler getMessage errIgnoreMsg =
         (.reject (.original (normalizeError getMessage errIgnoreMsg resp500)), []) ∧
       (normalizeError getMessage errIgnoreMsg resp500).message =
         (if errIgnoreMsg.message = "" then deriveErrorMsg getMessage errIgnoreMsg resp500
          else errIgnoreMsg.message) ∧
       (normalizeError getMessage errIgnoreMsg resp500).code =
         (if errIgnoreMsg.code.getD 0 = 0 ∧ resp500.status ≠ 0 then some resp500.status
          else errIgnoreMsg.code) ∧
       (normalizeError getMessage errIgnoreMsg resp500).config = errIgnoreMsg.config ∧
       (normalizeError getMessage errIgnoreMsg resp500).request = errIgnoreMsg.request ∧
       (normalizeError getMessage errIgnoreMsg resp500).response = errIgnoreMsg.response) ∧
     (ignoreMsgConfig.handleError = false →
       responseErrorHandler getMessage errIgnoreMsg =
         (.reject (.fresh (createError (deriveErrorMsg getMessage errIgnoreMsg resp500)
             ignoreMsgConfig (dataCodeOrStatus resp500.data resp500.status)
             errIgnoreMsg.request resp500)),
          [(.errorMessage, deriveErrorMsg getMessage errIgnoreMsg resp500)]) ∧
       ∀ e0, RejectVal.fresh (createError (deriveErrorMsg getMessage errIgnoreMsg resp500)
           ignoreMsgConfig (dataCodeOrStatus resp500.data resp500.status)
           errIgnoreMsg.request resp500) ≠ .original e0)) :=
  ⟨rfl, rfl,
   c5_error_path_branches getMessage errIgnoreMsg ignoreMsgConfig resp500 rfl rfl⟩

end FeUtils
